import Mathlib

/-!
Shallow embedding of the circle_application backend
(src/backend/app/routers/{users,circles,circle_news,followed}.py and
src/backend/app/schemas.py).

The database session is modelled as an explicit state (`DB`): each table is a
list of rows, and the autoincrement id generators are explicit counters.
A handler is a pure function from the current state (plus its HTTP inputs)
to the next state and an outcome.  The outcome of `db.commit()` is supplied
as an oracle argument (`CommitResult`): `ok` means the commit persisted,
`integrityError orig` means the driver raised `IntegrityError` with message
`orig`, and `otherError msg` means some other exception was raised during
commit.  On a failed commit the handler's pending writes are discarded
(SQLAlchemy rollback), so the returned state is the entry state.

Dates and timestamps are modelled as `Nat` ordinals; URL-typed fields are
plain strings (the `str(...)` coercions in the handlers are the identity
here).
-/

/-- A row of the `users` table (fields used by the routers). -/
structure UserRow where
  id : Nat
  name : String
  email : String
  icon : Option String
  login_id : String
  login_pass : String
  created_at : Nat
  deriving DecidableEq

/-- A row of the `circles` table (fields used by the routers). -/
structure CircleRow where
  id : Nat
  name : String
  description : Option String
  followers : Nat
  image : Option String
  tags : List String
  sns_links_x : Option String
  sns_links_instagram : Option String
  sns_links_line : Option String
  deriving DecidableEq

/-- A row of the `circle_news` table. -/
structure CircleNewsRow where
  id : Nat
  circle_id : Nat
  title : String
  date : Nat
  content : Option String
  has_photo : Bool
  photo_url : Option String
  deriving DecidableEq

/-- A row of the `followed` table. -/
structure FollowedRow where
  id : Nat
  user_id : Nat
  circle_id : Nat
  date : Option Nat
  is_admin : Bool
  deriving DecidableEq

/-- A row of the `user_schedules` table. -/
structure UserScheduleRow where
  id : Nat
  user_id : Nat
  circlenews_id : Nat
  title : String
  start_at : Nat
  end_at : Nat
  memo : Option String
  deriving DecidableEq

/-- The database state: one list per table plus the id sequences. -/
structure DB where
  users : List UserRow
  circles : List CircleRow
  news : List CircleNewsRow
  followed : List FollowedRow
  schedules : List UserScheduleRow
  nextNewsId : Nat
  nextScheduleId : Nat
  nextFollowedId : Nat
  nextUserId : Nat
  deriving DecidableEq

/-- Outcome of `db.commit()`, supplied to each handler as an oracle. -/
inductive CommitResult where
  | ok : CommitResult
  | integrityError (orig : String) : CommitResult
  | otherError (msg : String) : CommitResult
  deriving DecidableEq

/-- What a handler produces: a value (2xx), an `HTTPException(status, detail)`,
or an exception that escapes the handler uncaught. -/
inductive Outcome (α : Type) where
  | ok : α → Outcome α
  | http : Nat → String → Outcome α
  | unhandled : String → Outcome α
  deriving DecidableEq

/-- The HTTP status of an outcome (`none` for a 2xx value or an uncaught
exception, which FastAPI itself would turn into a 500 outside the handler). -/
def statusOf {α : Type} : Outcome α → Option Nat
  | .ok _ => none
  | .http s _ => some s
  | .unhandled _ => none

/-- Whether an outcome is an exception that escaped the handler. -/
def isUnhandled {α : Type} : Outcome α → Bool
  | .unhandled _ => true
  | _ => false

/-- Body of `POST /api/circles/{circle_id}/news` (schemas.CircleNewsCreate). -/
structure CircleNewsCreate where
  circle_id : Nat
  title : String
  date : Nat
  content : Option String
  has_photo : Bool
  photo_url : Option String
  deriving DecidableEq

/-- Body of `POST /api/followed` (schemas.FollowedCreate). -/
structure FollowedCreate where
  user_id : Nat
  circle_id : Nat
  date : Option Nat
  is_admin : Bool
  deriving DecidableEq

/-- Body of `POST /api/user` (schemas.UserCreate). -/
structure UserCreate where
  name : String
  email : String
  icon : Option String
  login_id : String
  login_pass : String
  deriving DecidableEq

/-- Body of `PUT /api/user/{user_id}` (schemas.UserUpdate); `none` means the
field was not supplied (Pydantic `exclude_unset`). -/
structure UserUpdate where
  name : Option String
  email : Option String
  icon : Option String
  login_id : Option String
  login_pass : Option String
  deriving DecidableEq

/-- Body of `PUT /api/circles/{circle_id}` (schemas.CircleUpdate); `none`
means the field was not supplied. -/
structure CircleUpdate where
  name : Option String
  description : Option String
  image : Option String
  tags : Option (List String)
  sns_links_x : Option String
  sns_links_instagram : Option String
  sns_links_line : Option String
  deriving DecidableEq

/-- Modelled from the spec: `app/security/security.py` (the `hash_pw`
collaborator) is not part of the provided sources; the spec only says
password fields are one-way hashed before persistence.  A concrete stand-in
hash; no claim below depends on its algebraic properties. -/
def hash_pw (s : String) : String := "$2b$" ++ s

/-- Embedding of `_ensure_circle_exists` and of the `select(Circle.id)` checks:
whether a circle with this id exists. -/
def circleExists (db : DB) (circle_id : Nat) : Bool :=
  db.circles.any (fun c => c.id == circle_id)

/-- The fan-out loop of `create_news`: one `UserSchedule(...)` per follower
user id, ids drawn from the sequence in order. -/
def mkSchedules (nextId newsId : Nat) (title : String) (d : Nat)
    (memo : Option String) : List Nat → List UserScheduleRow
  | [] => []
  | uid :: rest =>
      { id := nextId, user_id := uid, circlenews_id := newsId, title := title,
        start_at := d, end_at := d, memo := memo } ::
        mkSchedules (nextId + 1) newsId title d memo rest

/-- Embedding of `select(Followed.user_id).where(Followed.circle_id == cid)`:
the follower user ids of a circle, in table order. -/
def followerIds (db : DB) (circle_id : Nat) : List Nat :=
  (db.followed.filter (fun f => f.circle_id == circle_id)).map (fun f => f.user_id)

/-- Python `news.content or None`: an empty string becomes `None`. -/
def orNone : Option String → Option String
  | none => none
  | some s => if s = "" then none else some s

/-- Handler for `POST /api/circles/.../news` (routers/circle_news.py,
`create_news`): path/body mismatch check, insert of the news row, fan-out of
one schedule row per follower, then a single commit for all of it. -/
def create_news (db : DB) (circle_id : Nat) (payload : CircleNewsCreate)
    (co : CommitResult) : DB × Outcome CircleNewsRow :=
  if circle_id ≠ payload.circle_id then
    (db, .http 400 "circle_id mismatch between path and body")
  else
    let news : CircleNewsRow :=
      { id := db.nextNewsId, circle_id := payload.circle_id,
        title := payload.title, date := payload.date,
        content := payload.content, has_photo := payload.has_photo,
        photo_url := payload.photo_url }
    let fids := followerIds db news.circle_id
    let newSchedules :=
      mkSchedules db.nextScheduleId news.id news.title news.date
        (orNone news.content) fids
    match co with
    | .ok =>
        ({ db with
            news := db.news ++ [news],
            schedules := db.schedules ++ newSchedules,
            nextNewsId := db.nextNewsId + 1,
            nextScheduleId := db.nextScheduleId + fids.length },
         .ok news)
    | .integrityError orig =>
        (db, .http 409 ("unique constraint failed: " ++ orig))
    | .otherError msg =>
        (db, .http 500 ("create news failed: " ++ msg))

/-- Handler for `PUT /api/circles/.../news/...` (routers/circle_news.py,
`update_circle_news`): circle check, row lookup, overwrite of title /
content / date / has_photo (the handler does not touch `photo_url` or
`circle_id`), then commit.  Both failure branches raise status 400. -/
def update_circle_news (db : DB) (circle_id news_id : Nat)
    (payload : CircleNewsCreate) (co : CommitResult) :
    DB × Outcome CircleNewsRow :=
  if circleExists db circle_id = false then
    (db, .http 404 "circle not found")
  else
    match db.news.find? (fun n => n.circle_id == circle_id && n.id == news_id) with
    | none => (db, .http 404 "circle_news not found")
    | some row =>
        let row' : CircleNewsRow :=
          { row with title := payload.title, content := payload.content,
                     date := payload.date, has_photo := payload.has_photo }
        match co with
        | .ok =>
            ({ db with news := db.news.map (fun n =>
                  if n.circle_id == circle_id && n.id == news_id then row' else n) },
             .ok row')
        | .integrityError orig =>
            (db, .http 400 ("integrity error: " ++ orig))
        | .otherError msg =>
            (db, .http 400 ("cannot update circle_news: " ++ msg))

/-- Handler for `DELETE /api/circles/...` (routers/circles.py, `delete_circle`):
lookup, delete of the circle row only (no cascade in the handler), commit
with a generic 400 on failure. -/
def delete_circle (db : DB) (circle_id : Nat) (co : CommitResult) :
    DB × Outcome Unit :=
  match db.circles.find? (fun c => c.id == circle_id) with
  | none => (db, .http 404 "circle not found")
  | some _ =>
      match co with
      | .ok =>
          ({ db with circles := db.circles.filter (fun c => c.id != circle_id) },
           .ok ())
      | .integrityError orig =>
          (db, .http 400 ("cannot delete circle: " ++ orig))
      | .otherError msg =>
          (db, .http 400 ("cannot delete circle: " ++ msg))

/-- Merge of one optional row field in a partial update: a supplied payload
value overwrites, an unsupplied one keeps the stored value. -/
def mergeField (p : Option String) (old : Option String) : Option String :=
  match p with
  | none => old
  | some v => some v

/-- Handler for `PUT /api/circles/...` (routers/circles.py, `update_circle`):
lookup, merge of the supplied fields, commit; IntegrityError gives 409,
anything else 500. -/
def update_circle (db : DB) (circle_id : Nat) (payload : CircleUpdate)
    (co : CommitResult) : DB × Outcome CircleRow :=
  match db.circles.find? (fun c => c.id == circle_id) with
  | none => (db, .http 404 "circle not found")
  | some row =>
      let row' : CircleRow :=
        { row with
            name := payload.name.getD row.name,
            description := mergeField payload.description row.description,
            image := mergeField payload.image row.image,
            tags := payload.tags.getD row.tags,
            sns_links_x := mergeField payload.sns_links_x row.sns_links_x,
            sns_links_instagram :=
              mergeField payload.sns_links_instagram row.sns_links_instagram,
            sns_links_line := mergeField payload.sns_links_line row.sns_links_line }
      match co with
      | .ok =>
          ({ db with circles := db.circles.map (fun c =>
                if c.id == circle_id then row' else c) },
           .ok row')
      | .integrityError _ =>
          (db, .http 409 "circle name already exists")
      | .otherError msg =>
          (db, .http 500 ("cannot update circle: " ++ msg))

/-- Handler for `POST /api/user` (routers/users.py, `create_user`): the password is
hashed, the row inserted and committed; only `IntegrityError` is caught
(409), any other commit failure escapes the handler uncaught. -/
def create_user (db : DB) (payload : UserCreate) (now : Nat)
    (co : CommitResult) : DB × Outcome UserRow :=
  let user : UserRow :=
    { id := db.nextUserId, name := payload.name, email := payload.email,
      icon := payload.icon, login_id := payload.login_id,
      login_pass := hash_pw payload.login_pass, created_at := now }
  match co with
  | .ok =>
      ({ db with users := db.users ++ [user], nextUserId := db.nextUserId + 1 },
       .ok user)
  | .integrityError _ =>
      (db, .http 409 "email or login id is already exist.")
  | .otherError msg =>
      (db, .unhandled msg)

/-- Handler for `PUT /api/user/...` (routers/users.py, `update_user`): lookup,
early return when no field was supplied, merge (hashing a supplied non-empty
password), commit; IntegrityError gives 409, anything else 500. -/
def update_user (db : DB) (user_id : Nat) (payload : UserUpdate)
    (co : CommitResult) : DB × Outcome UserRow :=
  match db.users.find? (fun u => u.id == user_id) with
  | none => (db, .http 404 "Cannot find the user")
  | some user =>
      if payload.name = none ∧ payload.email = none ∧ payload.icon = none ∧
          payload.login_id = none ∧ payload.login_pass = none then
        (db, .ok user)
      else
        let newPass :=
          match payload.login_pass with
          | none => user.login_pass
          | some s => if s = "" then s else hash_pw s
        let user' : UserRow :=
          { user with
              name := payload.name.getD user.name,
              email := payload.email.getD user.email,
              icon := mergeField payload.icon user.icon,
              login_id := payload.login_id.getD user.login_id,
              login_pass := newPass }
        match co with
        | .ok =>
            ({ db with users := db.users.map (fun u =>
                  if u.id == user_id then user' else u) },
             .ok user')
        | .integrityError _ =>
            (db, .http 409 "email or login_id is already exist")
        | .otherError msg =>
            (db, .http 500 ("User update failed: " ++ msg))

/-- Handler for `DELETE /api/user/...` (routers/users.py, `delete_user`): lookup,
delete, commit.  There is no try/except around the commit, so any commit
failure escapes the handler uncaught. -/
def delete_user (db : DB) (user_id : Nat) (co : CommitResult) :
    DB × Outcome Unit :=
  match db.users.find? (fun u => u.id == user_id) with
  | none => (db, .http 404 "Cannot find the user")
  | some _ =>
      match co with
      | .ok =>
          ({ db with users := db.users.filter (fun u => u.id != user_id) },
           .ok ())
      | .integrityError orig => (db, .unhandled orig)
      | .otherError msg => (db, .unhandled msg)

/-- Handler for `POST /api/followed` (routers/followed.py, `create_Followed`): the
payload's `user_id` is overwritten with the acting user's id, the target
circle must exist (404), an existing (acting user, circle) row gives 409,
otherwise the row is inserted and committed. -/
def create_Followed (db : DB) (current_user_id : Nat)
    (payload : FollowedCreate) (co : CommitResult) :
    DB × Outcome FollowedRow :=
  if circleExists db payload.circle_id = false then
    (db, .http 404 "circle not found")
  else if db.followed.any
      (fun f => f.user_id == current_user_id && f.circle_id == payload.circle_id) then
    (db, .http 409 "already joined")
  else
    let row : FollowedRow :=
      { id := db.nextFollowedId, user_id := current_user_id,
        circle_id := payload.circle_id, date := payload.date,
        is_admin := payload.is_admin }
    match co with
    | .ok =>
        ({ db with followed := db.followed ++ [row],
                   nextFollowedId := db.nextFollowedId + 1 },
         .ok row)
    | .integrityError _ =>
        (db, .http 409 "integrity error")
    | .otherError msg =>
        (db, .http 400 ("cannot create Followed: " ++ msg))

/-- Handler for `DELETE /api/followed/...` (routers/followed.py,
`delete_Followed`): lookup of the acting user's membership row, delete,
commit.  There is no try/except around the commit, so any commit failure
escapes the handler uncaught. -/
def delete_Followed (db : DB) (current_user_id circle_id : Nat)
    (co : CommitResult) : DB × Outcome Unit :=
  match db.followed.find?
      (fun f => f.user_id == current_user_id && f.circle_id == circle_id) with
  | none => (db, .http 404 "Followed relationship not found")
  | some row =>
      match co with
      | .ok =>
          ({ db with followed := db.followed.filter (fun f => f.id != row.id) },
           .ok ())
      | .integrityError orig => (db, .unhandled orig)
      | .otherError msg => (db, .unhandled msg)

/-- The columns `list_user` can sort by (`sort_map` in routers/users.py). -/
inductive UserCol where
  | id | name | created_at
  deriving DecidableEq

/-- Embedding of `sort_map.get(key, User.id)`: lookup with default `User.id`. -/
def sort_map_get (key : String) : UserCol :=
  if key = "id" then .id
  else if key = "name" then .name
  else if key = "created_at" then .created_at
  else .id

/-- Case-insensitive `LIKE '%s%'` match used by the user search filter. -/
def likeContains (hay needle : String) : Bool :=
  decide (List.IsInfix (needle.toLower.toList) (hay.toLower.toList))

/-- Python `sort.startswith("-")`. -/
def startsDash (s : String) : Bool :=
  match s.data with
  | [] => false
  | c :: _ => c == '-'

/-- Python `sort[1:]`. -/
def dropOne (s : String) : String :=
  String.mk (s.data.drop 1)

/-- The ascending comparison on the selected column. -/
def userColLe (col : UserCol) (a b : UserRow) : Bool :=
  match col with
  | .id => a.id ≤ b.id
  | .name => decide (a.name ≤ b.name)
  | .created_at => a.created_at ≤ b.created_at

/-- Handler for `GET /api/user` (routers/users.py, `list_user`): optional
case-insensitive search over name/email/login_id, sort by
`sort_map.get(key, User.id)` with a leading `-` selecting descending order,
then `limit(size)`.  The pure query cannot raise, so the `except` branch
(400) of the handler is unreachable here. -/
def list_user (db : DB) (size : Nat) (search : Option String)
    (sort : String) : Outcome (List UserRow) :=
  let rows :=
    match search with
    | none => db.users
    | some s =>
        if s = "" then db.users
        else
          let s' := s.trim
          db.users.filter (fun u =>
            likeContains u.name s' || likeContains u.email s' ||
              likeContains u.login_id s')
  let desc := startsDash sort
  let key := if desc then dropOne sort else sort
  let col := sort_map_get key
  let le := fun a b =>
    if desc then userColLe col b a else userColLe col a b
  .ok ((rows.mergeSort le).take size)

/-- Referential-integrity property of claim C4: every stored CircleNews row's
`circle_id` is the id of some stored Circle row. -/
def newsRefsCircle (db : DB) : Prop :=
  ∀ n ∈ db.news, ∃ c ∈ db.circles, c.id = n.circle_id

/-- Modelled from the spec: `app/models.py` and `app/db.py` are not part of
the provided sources, so the database-level constraints are taken from the
spec, which states the persistence layer owns durability and *uniqueness*
constraints — `users.email`, `users.login_id` and `circles.name` are
globally unique.  No foreign-key or cascade behaviour is stated, so none is
modelled; a commit whose pending state satisfies these constraints can
succeed. -/
def dbConstraintsOK (db : DB) : Prop :=
  (db.users.map (fun u => u.email)).Nodup ∧
  (db.users.map (fun u => u.login_id)).Nodup ∧
  (db.circles.map (fun c => c.name)).Nodup

instance (db : DB) : Decidable (newsRefsCircle db) := by
  unfold newsRefsCircle; infer_instance

instance (db : DB) : Decidable (dbConstraintsOK db) := by
  unfold dbConstraintsOK; infer_instance

/-- At most one Followed row per (user, circle) pair: no two distinct
stored rows agree on both user_id and circle_id. -/
def atMostOneFollow (db : DB) : Prop :=
  db.followed.Pairwise (fun f g => f.user_id ≠ g.user_id ∨ f.circle_id ≠ g.circle_id)

instance (db : DB) : Decidable (atMostOneFollow db) := by
  unfold atMostOneFollow; infer_instance

theorem mkSchedules_length (nextId newsId : Nat) (title : String) (d : Nat)
    (memo : Option String) (l : List Nat) :
    (mkSchedules nextId newsId title d memo l).length = l.length := by
  induction l generalizing nextId with
  | nil => rfl
  | cons uid rest ih => simp [mkSchedules, ih]

theorem mkSchedules_map_user_id (nextId newsId : Nat) (title : String)
    (d : Nat) (memo : Option String) (l : List Nat) :
    (mkSchedules nextId newsId title d memo l).map (fun s => s.user_id) = l := by
  induction l generalizing nextId with
  | nil => rfl
  | cons uid rest ih => simp [mkSchedules, ih]

theorem mkSchedules_fields (nextId newsId : Nat) (title : String) (d : Nat)
    (memo : Option String) (l : List Nat) :
    ∀ s ∈ mkSchedules nextId newsId title d memo l,
      s.title = title ∧ s.start_at = d ∧ s.end_at = d := by
  induction l generalizing nextId with
  | nil => intro s hs; simp [mkSchedules] at hs
  | cons uid rest ih =>
      intro s hs
      simp only [mkSchedules, List.mem_cons] at hs
      rcases hs with rfl | hs
      · exact ⟨rfl, rfl, rfl⟩
      · exact ih _ s hs

theorem followerIds_length (db : DB) (cid : Nat) :
    (followerIds db cid).length =
      db.followed.countP (fun f => f.circle_id == cid) := by
  simp [followerIds, ← List.countP_eq_length_filter]

/-- C1: a successful CircleNews create for a circle with N followers (N rows
in Followed with that circle_id) appends exactly one CircleNews row and
exactly N UserSchedule rows, one per follower in order, each new schedule
carrying the news title and start_at = end_at = the news date; with N = 0
the news row is still committed and no schedule row is created. -/
theorem c1_create_news_fanout (db : DB) (cid : Nat)
    (payload : CircleNewsCreate) (h : cid = payload.circle_id) :
    (create_news db cid payload .ok).1.news.length = db.news.length + 1 ∧
    (∃ n, (create_news db cid payload .ok).2 = .ok n ∧
      n.circle_id = payload.circle_id ∧ n.title = payload.title ∧
      n.date = payload.date ∧
      (create_news db cid payload .ok).1.news = db.news ++ [n]) ∧
    (create_news db cid payload .ok).1.schedules.length =
      db.schedules.length +
        db.followed.countP (fun f => f.circle_id == payload.circle_id) ∧
    ((create_news db cid payload .ok).1.schedules.drop db.schedules.length).map
        (fun s => s.user_id) = followerIds db payload.circle_id ∧
    ∀ s ∈ (create_news db cid payload .ok).1.schedules.drop db.schedules.length,
      s.title = payload.title ∧ s.start_at = payload.date ∧
        s.end_at = payload.date := by
  subst h
  simp only [create_news, ne_eq, not_true_eq_false, if_neg, ite_false,
    if_false]
  refine ⟨?_, ⟨_, rfl, rfl, rfl, rfl, rfl⟩, ?_, ?_, ?_⟩
  · simp
  · simp [mkSchedules_length, followerIds_length]
  · rw [List.drop_left, mkSchedules_map_user_id]
  · rw [List.drop_left]
    exact mkSchedules_fields _ _ _ _ _ _

/-- A small concrete database used by the witnesses below: one user (id 1),
one circle (id 7), one news row (id 1, in circle 7), one membership
(user 1 follows circle 7). -/
def dbW : DB :=
  { users := [{ id := 1, name := "alice", email := "a@example.com",
                icon := none, login_id := "alice1", login_pass := "hp",
                created_at := 0 }],
    circles := [{ id := 7, name := "chess", description := none,
                  followers := 0, image := none, tags := [],
                  sns_links_x := none, sns_links_instagram := none,
                  sns_links_line := none }],
    news := [{ id := 1, circle_id := 7, title := "old title", date := 3,
               content := some "x", has_photo := false,
               photo_url := some "old.png" }],
    followed := [{ id := 1, user_id := 1, circle_id := 7, date := none,
                   is_admin := false }],
    schedules := [], nextNewsId := 2, nextScheduleId := 1,
    nextFollowedId := 2, nextUserId := 2 }

/-- A concrete news-creation payload for circle 7. -/
def newsPayloadW : CircleNewsCreate :=
  { circle_id := 7, title := "meet", date := 5, content := none,
    has_photo := false, photo_url := none }

/-- Witness for C1 at a concrete circle with two followers. -/
theorem c1_create_news_fanout_witness :
    (create_news
      { users := [], circles := [], news := [],
        followed :=
          [{ id := 1, user_id := 10, circle_id := 7, date := none,
             is_admin := false },
           { id := 2, user_id := 11, circle_id := 7, date := none,
             is_admin := false }],
        schedules := [], nextNewsId := 1, nextScheduleId := 1,
        nextFollowedId := 3, nextUserId := 1 } 7
      { circle_id := 7, title := "t", date := 5, content := none,
        has_photo := false, photo_url := none } .ok).1.news.length =
        0 + 1 := by
  have h := c1_create_news_fanout
    { users := [], circles := [], news := [],
      followed :=
        [{ id := 1, user_id := 10, circle_id := 7, date := none,
           is_admin := false },
         { id := 2, user_id := 11, circle_id := 7, date := none,
           is_admin := false }],
      schedules := [], nextNewsId := 1, nextScheduleId := 1,
      nextFollowedId := 3, nextUserId := 1 } 7
    { circle_id := 7, title := "t", date := 5, content := none,
      has_photo := false, photo_url := none } rfl
  simpa using h.1

/-- C2: the create transaction of `create_news` is all-or-nothing: a commit
failing with an integrity (uniqueness) violation yields a 409 conflict, any
other commit failure yields a generic 500, and in both cases the returned
state is the entry state — neither the news row nor any fan-out schedule
row is persisted. -/
theorem c2_create_news_rollback (db : DB) (cid : Nat)
    (payload : CircleNewsCreate) (h : cid = payload.circle_id)
    (orig msg : String) :
    create_news db cid payload (.integrityError orig) =
      (db, .http 409 ("unique constraint failed: " ++ orig)) ∧
    create_news db cid payload (.otherError msg) =
      (db, .http 500 ("create news failed: " ++ msg)) := by
  subst h
  simp [create_news]

/-- Witness for C2: a concrete failing commit leaves `dbW` unchanged. -/
theorem c2_create_news_rollback_witness :
    create_news dbW 7 newsPayloadW (.integrityError "dup") =
      (dbW, .http 409 "unique constraint failed: dup") ∧
    create_news dbW 7 newsPayloadW (.otherError "disk full") =
      (dbW, .http 500 "create news failed: disk full") := by
  simpa using c2_create_news_rollback dbW 7 newsPayloadW rfl "dup" "disk full"

/-- C3: when the circle_id of the path differs from the circle_id of the
body, `create_news` returns a 400 mismatch error whatever the commit oracle
would have answered, and the stored state is unchanged. -/
theorem c3_create_news_mismatch (db : DB) (cid : Nat)
    (payload : CircleNewsCreate) (co : CommitResult)
    (h : cid ≠ payload.circle_id) :
    create_news db cid payload co =
      (db, .http 400 "circle_id mismatch between path and body") := by
  simp [create_news, h]

/-- Witness for C3: path id 8 against body id 7. -/
theorem c3_create_news_mismatch_witness :
    create_news dbW 8 newsPayloadW .ok =
      (dbW, .http 400 "circle_id mismatch between path and body") :=
  c3_create_news_mismatch dbW 8 newsPayloadW .ok (by decide)

/-- A completely empty database. -/
def dbEmpty : DB :=
  { users := [], circles := [], news := [], followed := [], schedules := [],
    nextNewsId := 1, nextScheduleId := 1, nextFollowedId := 1,
    nextUserId := 1 }

/-- A news payload for the nonexistent circle 1. -/
def newsPayloadGhost : CircleNewsCreate :=
  { circle_id := 1, title := "ghost", date := 0, content := none,
    has_photo := false, photo_url := none }

/-- C4 is violated by the code: `create_news` never checks that the circle
exists (unlike every other handler of the same router, which calls
`_ensure_circle_exists`), so from the empty database — which satisfies the
referential invariant and the modelled uniqueness constraints — creating a
news item for the nonexistent circle 1 succeeds and leaves a CircleNews row
referencing no Circle; the uniqueness constraints still hold of the result,
so nothing in the modelled persistence layer stops the commit.  Likewise
`delete_circle` removes only the circle row, so deleting circle 7 of `dbW`
(which has a news row in circle 7) also breaks the invariant. -/
theorem c4_circle_ref_invariant_broken :
    newsRefsCircle dbEmpty ∧ dbConstraintsOK dbEmpty ∧
    (create_news dbEmpty 1 newsPayloadGhost .ok).2 = .ok
      { id := 1, circle_id := 1, title := "ghost", date := 0, content := none,
        has_photo := false, photo_url := none } ∧
    dbConstraintsOK (create_news dbEmpty 1 newsPayloadGhost .ok).1 ∧
    ¬ newsRefsCircle (create_news dbEmpty 1 newsPayloadGhost .ok).1 ∧
    newsRefsCircle dbW ∧
    (delete_circle dbW 7 .ok).2 = .ok () ∧
    ¬ newsRefsCircle (delete_circle dbW 7 .ok).1 := by
  refine ⟨by decide, by decide, rfl, by decide, by decide, by decide, rfl,
    by decide⟩

/-- C5: a follow of a nonexistent circle fails 404 first; a follow of a
circle the acting user already follows fails 409 and inserts nothing; the
at-most-one-row-per-(user, circle) property is preserved by every follow
operation; and after a successful follow, a second follow of the same
circle by the same user (whatever its payload and commit oracle) returns
the 409 conflict and leaves the state unchanged. -/
theorem c5_create_Followed_once (db : DB) (uid : Nat)
    (payload : FollowedCreate) (co : CommitResult) :
    (circleExists db payload.circle_id = false →
      create_Followed db uid payload co = (db, .http 404 "circle not found")) ∧
    (circleExists db payload.circle_id = true →
      db.followed.any
        (fun f => f.user_id == uid && f.circle_id == payload.circle_id) = true →
      create_Followed db uid payload co = (db, .http 409 "already joined")) ∧
    (atMostOneFollow db → atMostOneFollow (create_Followed db uid payload co).1) ∧
    (∀ row, (create_Followed db uid payload co).2 = .ok row →
      ∀ (p2 : FollowedCreate) (co2 : CommitResult),
        p2.circle_id = payload.circle_id →
        create_Followed (create_Followed db uid payload co).1 uid p2 co2 =
          ((create_Followed db uid payload co).1, .http 409 "already joined")) := by
  refine ⟨fun h1 => by simp [create_Followed, h1],
    fun h1 h2 => by simp [create_Followed, h1, h2], ?_, ?_⟩
  · intro hinv
    by_cases h1 : circleExists db payload.circle_id = false
    · simpa [create_Followed, h1] using hinv
    · rw [Bool.not_eq_false] at h1
      by_cases h2 : db.followed.any
          (fun f => f.user_id == uid && f.circle_id == payload.circle_id) = true
      · simpa [create_Followed, h1, h2] using hinv
      · rw [Bool.not_eq_true] at h2
        cases co with
        | integrityError orig => simpa [create_Followed, h1, h2] using hinv
        | otherError msg => simpa [create_Followed, h1, h2] using hinv
        | ok =>
            simp only [create_Followed, h1, h2, Bool.true_eq_false, if_false,
              Bool.false_eq_true]
            unfold atMostOneFollow at hinv ⊢
            simp only
            refine List.pairwise_append.mpr ⟨hinv, List.pairwise_singleton _ _, ?_⟩
            intro f hf r hr
            simp only [List.mem_singleton] at hr
            subst hr
            have h3 := List.any_eq_false.mp h2 f hf
            simp only [Bool.and_eq_true, beq_iff_eq, not_and_or] at h3
            simpa using h3
  · intro row hrow p2 co2 hcid
    by_cases h1 : circleExists db payload.circle_id = false
    · simp [create_Followed, h1] at hrow
    · rw [Bool.not_eq_false] at h1
      by_cases h2 : db.followed.any
          (fun f => f.user_id == uid && f.circle_id == payload.circle_id) = true
      · simp [create_Followed, h1, h2] at hrow
      · rw [Bool.not_eq_true] at h2
        cases co with
        | integrityError orig => simp [create_Followed, h1, h2] at hrow
        | otherError msg => simp [create_Followed, h1, h2] at hrow
        | ok =>
            have h1' : (db.circles.any fun c => c.id == payload.circle_id) = true := h1
            simp [create_Followed, circleExists, h1, h2, hcid, h1',
              List.any_append]

/-- A database with circle 7 and no memberships. -/
def dbEmptyCircle : DB :=
  { dbEmpty with
      circles := [{ id := 7, name := "chess", description := none,
                    followers := 0, image := none, tags := [],
                    sns_links_x := none, sns_links_instagram := none,
                    sns_links_line := none }] }

/-- A follow payload for circle 7 carrying a bogus client-supplied user_id. -/
def followPayloadW : FollowedCreate :=
  { user_id := 99, circle_id := 7, date := none, is_admin := false }

/-- Witness for C5: in `dbW` user 1 already follows circle 7, so a second
follow returns the conflict with the state unchanged, and the invariant is
preserved. -/
theorem c5_create_Followed_once_witness :
    create_Followed dbW 1 followPayloadW .ok =
      (dbW, .http 409 "already joined") ∧
    atMostOneFollow (create_Followed dbW 1 followPayloadW .ok).1 :=
  ⟨(c5_create_Followed_once dbW 1 followPayloadW .ok).2.1 (by decide) (by decide),
   (c5_create_Followed_once dbW 1 followPayloadW .ok).2.2.1 (by decide)⟩

/-- C6: the client-supplied user_id of a FollowedCreate payload has no
influence — two requests by the same acting user whose payloads agree on
everything except user_id produce identical states and responses — and a
successful follow always stores the acting user's id. -/
theorem c6_create_Followed_acting_identity (db : DB) (uid : Nat)
    (p1 p2 : FollowedCreate) (co : CommitResult)
    (hc : p1.circle_id = p2.circle_id) (hd : p1.date = p2.date)
    (ha : p1.is_admin = p2.is_admin) :
    create_Followed db uid p1 co = create_Followed db uid p2 co ∧
    ∀ db' row, create_Followed db uid p1 co = (db', .ok row) →
      row.user_id = uid := by
  constructor
  · obtain ⟨u1, c1, d1, a1⟩ := p1
    obtain ⟨u2, c2, d2, a2⟩ := p2
    cases hc; cases hd; cases ha
    rfl
  · intro db' row h
    unfold create_Followed at h
    split at h
    · simp at h
    · split at h
      · simp at h
      · cases co with
        | integrityError orig => simp at h
        | otherError msg => simp at h
        | ok =>
            simp only [Prod.mk.injEq, Outcome.ok.injEq] at h
            rw [← h.2]

/-- Witness for C6: two payloads for circle 7 differing only in the
client-supplied user_id give the same result, which stores user id 1. -/
theorem c6_create_Followed_acting_identity_witness :
    create_Followed dbEmptyCircle 1 followPayloadW .ok =
      create_Followed dbEmptyCircle 1
        { user_id := 42, circle_id := 7, date := none, is_admin := false }
        .ok ∧
    ∀ db' row,
      create_Followed dbEmptyCircle 1 followPayloadW .ok = (db', .ok row) →
        row.user_id = 1 :=
  c6_create_Followed_acting_identity dbEmptyCircle 1 followPayloadW
    { user_id := 42, circle_id := 7, date := none, is_admin := false }
    .ok rfl rfl rfl

/-- Counterexample to C7: in `dbW` (circle 7, news row 1) an update of the
news row whose commit fails with an integrity violation returns status 400,
not the 409 the claim requires for every update operation. -/
theorem c7_update_news_integrity_gives_400 :
    update_circle_news dbW 7 1 newsPayloadW (.integrityError "dup") =
      (dbW, .http 400 "integrity error: dup") ∧
    statusOf (update_circle_news dbW 7 1 newsPayloadW
      (.integrityError "dup")).2 ≠ some 409 := by
  constructor
  · decide
  · decide

/-- The payload of `PUT /api/user/{id}` supplied no field at all. -/
def userUpdateUnset (p : UserUpdate) : Prop :=
  p.name = none ∧ p.email = none ∧ p.icon = none ∧ p.login_id = none ∧
    p.login_pass = none

instance (p : UserUpdate) : Decidable ( userUpdateUnset p) := by
  unfold userUpdateUnset; infer_instance

/-- C7 as amended: for all three update handlers an unknown id yields 404
and a failed commit rolls back (the returned state is the entry state); a
uniqueness violation on commit yields 409 for user and circle updates but
400 for CircleNews updates, and any other commit failure yields 500 for
user and circle updates but 400 for CircleNews updates. -/
theorem c7_update_handlers_amended (db : DB) (i cid nid : Nat)
    (pu : UserUpdate) (pc : CircleUpdate) (pn : CircleNewsCreate)
    (orig msg : String) :
    (db.users.find? (fun u => u.id == i) = none →
      ∀ co, update_user db i pu co = (db, .http 404 "Cannot find the user")) ∧
    (∀ u, db.users.find? (fun u => u.id == i) = some u → ¬ userUpdateUnset pu →
      update_user db i pu (.integrityError orig) =
        (db, .http 409 "email or login_id is already exist") ∧
      update_user db i pu (.otherError msg) =
        (db, .http 500 ("User update failed: " ++ msg))) ∧
    (db.circles.find? (fun c => c.id == cid) = none →
      ∀ co, update_circle db cid pc co = (db, .http 404 "circle not found")) ∧
    (∀ c, db.circles.find? (fun c => c.id == cid) = some c →
      update_circle db cid pc (.integrityError orig) =
        (db, .http 409 "circle name already exists") ∧
      update_circle db cid pc (.otherError msg) =
        (db, .http 500 ("cannot update circle: " ++ msg))) ∧
    (circleExists db cid = false →
      ∀ co, update_circle_news db cid nid pn co =
        (db, .http 404 "circle not found")) ∧
    (circleExists db cid = true →
      db.news.find? (fun n => n.circle_id == cid && n.id == nid) = none →
      ∀ co, update_circle_news db cid nid pn co =
        (db, .http 404 "circle_news not found")) ∧
    (∀ n, circleExists db cid = true →
      db.news.find? (fun n => n.circle_id == cid && n.id == nid) = some n →
      update_circle_news db cid nid pn (.integrityError orig) =
        (db, .http 400 ("integrity error: " ++ orig)) ∧
      update_circle_news db cid nid pn (.otherError msg) =
        (db, .http 400 ("cannot update circle_news: " ++ msg))) := by
  refine ⟨?_, ?_, ?_, ?_, ?_, ?_, ?_⟩
  · intro h co; simp [update_user, h]
  · intro u hu hne
    rw [userUpdateUnset] at hne
    constructor <;> · simp only [update_user, hu, if_neg hne]
  · intro h co; simp [update_circle, h]
  · intro c hc
    constructor <;> simp [update_circle, hc]
  · intro h co; simp [update_circle_news, h]
  · intro h1 h2 co; simp [update_circle_news, h1, h2]
  · intro n h1 h2
    constructor <;> simp [update_circle_news, h1, h2]

/-- A user-update payload that supplies only a new name. -/
def userUpdW : UserUpdate :=
  { name := some "bob", email := none, icon := none, login_id := none,
    login_pass := none }

/-- The user row stored in `dbW`. -/
def aliceRow : UserRow :=
  { id := 1, name := "alice", email := "a@example.com", icon := none,
    login_id := "alice1", login_pass := "hp", created_at := 0 }

/-- The news row stored in `dbW`. -/
def oldNewsRow : CircleNewsRow :=
  { id := 1, circle_id := 7, title := "old title", date := 3,
    content := some "x", has_photo := false, photo_url := some "old.png" }

/-- Witness for the amended C7 at `dbW`: unknown user id 99 gives 404, a
uniqueness violation on the user update gives 409, and a generic commit
failure on the news update gives 400, each leaving the state unchanged. -/
theorem c7_update_handlers_amended_witness :
    update_user dbW 99 userUpdW .ok = (dbW, .http 404 "Cannot find the user") ∧
    update_user dbW 1 userUpdW (.integrityError "dup") =
      (dbW, .http 409 "email or login_id is already exist") ∧
    update_circle_news dbW 7 1 newsPayloadW (.otherError "boom") =
      (dbW, .http 400 "cannot update circle_news: boom") :=
  ⟨(c7_update_handlers_amended dbW 99 7 1 userUpdW
      { name := none, description := none, image := none, tags := none,
        sns_links_x := none, sns_links_instagram := none,
        sns_links_line := none } newsPayloadW "dup" "boom").1 (by decide) .ok,
   ((c7_update_handlers_amended dbW 1 7 1 userUpdW
      { name := none, description := none, image := none, tags := none,
        sns_links_x := none, sns_links_instagram := none,
        sns_links_line := none } newsPayloadW "dup" "boom").2.1 aliceRow
      (by decide) (by decide)).1,
   ((c7_update_handlers_amended dbW 1 7 1 userUpdW
      { name := none, description := none, image := none, tags := none,
        sns_links_x := none, sns_links_instagram := none,
        sns_links_line := none } newsPayloadW "dup" "boom").2.2.2.2.2.2
      oldNewsRow (by decide) (by decide)).2⟩

/-- A full news-update payload that supplies a new photo_url. -/
def newsPayloadPhoto : CircleNewsCreate :=
  { circle_id := 7, title := "new title", date := 9, content := some "c",
    has_photo := true, photo_url := some "new.png" }

/-- Counterexample to C8: a full update of news row 1 of `dbW` supplying
photo_url = "new.png" succeeds, yet the stored and returned row keeps the
old photo_url "old.png" — the handler never writes that field. -/
theorem c8_photo_url_not_overwritten :
    (update_circle_news dbW 7 1 newsPayloadPhoto .ok).2 =
      .ok { id := 1, circle_id := 7, title := "new title", date := 9,
            content := some "c", has_photo := true,
            photo_url := some "old.png" } ∧
    some "old.png" ≠ newsPayloadPhoto.photo_url := by
  constructor
  · decide
  · decide

/-- C8 as amended: on a successful full update of a CircleNews row, the
payload's title, content, date and has_photo overwrite the stored values,
while photo_url, circle_id and id keep their stored values (photo_url is
never written even though the payload supplies it); the updated row is
returned and stored. -/
theorem c8_update_news_frame (db : DB) (cid nid : Nat)
    (pn : CircleNewsCreate) (n : CircleNewsRow)
    (h1 : circleExists db cid = true)
    (h2 : db.news.find? (fun m => m.circle_id == cid && m.id == nid) = some n) :
    ∃ row', (update_circle_news db cid nid pn .ok).2 = .ok row' ∧
      row'.title = pn.title ∧ row'.content = pn.content ∧
      row'.date = pn.date ∧ row'.has_photo = pn.has_photo ∧
      row'.photo_url = n.photo_url ∧ row'.circle_id = n.circle_id ∧
      row'.id = n.id ∧
      row' ∈ (update_circle_news db cid nid pn .ok).1.news := by
  refine ⟨{ n with title := pn.title, content := pn.content, date := pn.date, has_photo := pn.has_photo }, ?_, rfl, rfl, rfl, rfl, rfl, rfl, rfl, ?_⟩
  · simp [update_circle_news, h1, h2]
  · have hn := List.mem_of_find?_eq_some h2
    have hp := List.find?_some h2
    simp only [update_circle_news, h1, h2]
    exact List.mem_map.mpr ⟨n, hn, by simp [hp]⟩

/-- Witness for the amended C8 at news row 1 of `dbW`. -/
theorem c8_update_news_frame_witness :
    ∃ row', (update_circle_news dbW 7 1 newsPayloadPhoto .ok).2 = .ok row' ∧
      row'.title = newsPayloadPhoto.title ∧
      row'.content = newsPayloadPhoto.content ∧
      row'.date = newsPayloadPhoto.date ∧
      row'.has_photo = newsPayloadPhoto.has_photo ∧
      row'.photo_url = oldNewsRow.photo_url ∧
      row'.circle_id = oldNewsRow.circle_id ∧
      row'.id = oldNewsRow.id ∧
      row' ∈ (update_circle_news dbW 7 1 newsPayloadPhoto .ok).1.news :=
  c8_update_news_frame dbW 7 1 newsPayloadPhoto oldNewsRow (by decide)
    (by decide)

/-- Counterexample to C9: deleting user 1 of `dbW` when the commit fails
with a generic error lets the exception escape the handler — `delete_user`
has no try/except around its commit, so the failure is not mapped to a
structured error at the handler boundary. -/
theorem c9_delete_user_uncaught :
    delete_user dbW 1 (.otherError "disk full") =
      (dbW, .unhandled "disk full") ∧
    isUnhandled (delete_user dbW 1 (.otherError "disk full")).2 = true := by
  constructor
  · decide
  · decide

/-- C9 as amended: `delete_user` and `delete_Followed` have no try/except
around their commits, so every commit failure (integrity or otherwise)
escapes the handler uncaught, and `create_user` catches only integrity
violations (409), letting any other commit failure escape uncaught; in all
these cases nothing is persisted (the returned state is the entry state). -/
theorem c9_uncaught_commit_failures (db : DB) (i uid cid now : Nat)
    (pc : UserCreate) (orig msg : String) :
    (∀ u, db.users.find? (fun x => x.id == i) = some u →
      delete_user db i (.integrityError orig) = (db, .unhandled orig) ∧
      delete_user db i (.otherError msg) = (db, .unhandled msg)) ∧
    (∀ f, db.followed.find?
        (fun x => x.user_id == uid && x.circle_id == cid) = some f →
      delete_Followed db uid cid (.integrityError orig) =
        (db, .unhandled orig) ∧
      delete_Followed db uid cid (.otherError msg) = (db, .unhandled msg)) ∧
    create_user db pc now (.integrityError orig) =
      (db, .http 409 "email or login id is already exist.") ∧
    create_user db pc now (.otherError msg) = (db, .unhandled msg) := by
  refine ⟨?_, ?_, ?_, ?_⟩
  · intro u hu; constructor <;> simp [delete_user, hu]
  · intro f hf; constructor <;> simp [delete_Followed, hf]
  · simp [create_user]
  · simp [create_user]

/-- Witness for the amended C9 at `dbW` (user 1 and membership (1, 7)
exist). -/
theorem c9_uncaught_commit_failures_witness :
    delete_user dbW 1 (.integrityError "fk") = (dbW, .unhandled "fk") ∧
    delete_Followed dbW 1 7 (.otherError "io") = (dbW, .unhandled "io") ∧
    create_user dbW
      { name := "bob", email := "b@example.com", icon := none,
        login_id := "bobbob", login_pass := "secret" } 1
      (.otherError "io") = (dbW, .unhandled "io") :=
  ⟨((c9_uncaught_commit_failures dbW 1 1 7 1
      { name := "bob", email := "b@example.com", icon := none,
        login_id := "bobbob", login_pass := "secret" } "fk" "io").1 aliceRow
      (by decide)).1,
   ((c9_uncaught_commit_failures dbW 1 1 7 1
      { name := "bob", email := "b@example.com", icon := none,
        login_id := "bobbob", login_pass := "secret" } "fk" "io").2.1
      { id := 1, user_id := 1, circle_id := 7, date := none,
        is_admin := false } (by decide)).2,
   (c9_uncaught_commit_failures dbW 1 1 7 1
      { name := "bob", email := "b@example.com", icon := none,
        login_id := "bobbob", login_pass := "secret" } "fk" "io").2.2.2⟩

/-- C10: a sort parameter whose field name (after stripping an optional
leading "-") is none of id, name, created_at makes `list_user` behave
exactly as if sorting by id had been requested (the "-" still selecting
descending order), and the request succeeds — no validation or query error
is raised for the unrecognized field. -/
theorem c10_list_user_unknown_sort (db : DB) (size : Nat)
    (search : Option String) (sort : String)
    (h1 : (if startsDash sort then dropOne sort else sort) ≠ "id")
    (h2 : (if startsDash sort then dropOne sort else sort) ≠ "name")
    (h3 : (if startsDash sort then dropOne sort else sort) ≠ "created_at") :
    list_user db size search sort =
      list_user db size search (if startsDash sort then "-id" else "id") ∧
    ∃ rows, list_user db size search sort = .ok rows := by
  refine ⟨?_, ⟨_, rfl⟩⟩
  by_cases hd : startsDash sort = true
  · rw [if_pos hd] at h1 h2 h3
    have hcol : sort_map_get (dropOne sort) = .id := by
      rw [sort_map_get, if_neg h1, if_neg h2, if_neg h3]
    have hstd : dropOne "-id" = "id" := by decide
    have hsts : startsDash "-id" = true := by decide
    have hcol2 : sort_map_get "id" = .id := by decide
    simp only [list_user, hd, if_pos hd, if_true, hcol, hstd, hsts, hcol2]
  · rw [Bool.not_eq_true] at hd
    rw [if_neg (by simp [hd])] at h1 h2 h3
    have hcol : sort_map_get sort = .id := by
      rw [sort_map_get, if_neg h1, if_neg h2, if_neg h3]
    have hsts : startsDash "id" = false := by decide
    have hcol2 : sort_map_get "id" = .id := by decide
    simp only [list_user, hd, Bool.false_eq_true, if_false, hcol, hsts,
      hcol2]

/-- Witness for C10: sorting by the unknown field "xyz" equals sorting by
"id" on a concrete database, and yields a value. -/
theorem c10_list_user_unknown_sort_witness :
    (list_user dbW 20 none "xyz" =
      list_user dbW 20 none (if startsDash "xyz" then "-id" else "id")) ∧
    ∃ rows, list_user dbW 20 none "xyz" = .ok rows :=
  c10_list_user_unknown_sort dbW 20 none "xyz" (by decide) (by decide)
    (by decide)
